import Mathlib

/-!
Shallow embedding of drivers/usb/typec/tcpm/qcom/qcom_pmic_tcpm_pdphy.c.

Register accesses go through a small state machine: the state holds the
current register values, the byte stream backing the RX buffer register,
a failure oracle (one Bool per register-I/O or regulator call; true means
that call fails, as regmap calls may), and a trace of observable events
(register reads/writes, lock/unlock of the spinlock, upper-port callbacks,
regulator operations, error logs).  Each C function is translated into a
Lean function from state to state (plus the int return value where the C
function returns one).  dev_err calls are recorded as Event.log; dev_dbg
and dev_vdbg calls (verbose debugging, typically compiled out) are not
recorded.
-/

namespace Pdphy

/-- Registers of the PDPHY block named in the driver. -/
inductive Reg where
  | msgConfig
  | enControl
  | rxStatus
  | frameFilter
  | txSize
  | txControl
  | txBufferHdr
  | txBufferData
  | rxSize
  | rxBuffer
  | rxAcknowledge
  deriving DecidableEq

instance : Fintype Reg :=
  ⟨⟨{.msgConfig, .enControl, .rxStatus, .frameFilter, .txSize, .txControl,
     .txBufferHdr, .txBufferData, .rxSize, .rxBuffer, .rxAcknowledge}, by decide⟩,
   by intro x; cases x <;> decide⟩

/-- Transmit-complete status values handed to tcpm_pd_transmit_complete. -/
inductive TxStatus where
  | success
  | failed
  | discarded
  deriving DecidableEq

/-- Observable events of a run of driver code. -/
inductive Event where
  | lock
  | unlock
  | write (r : Reg) (v : Nat) (ok : Bool)
  | read (r : Reg) (ok : Bool)
  | bulkWrite (r : Reg) (data : List Nat) (ok : Bool)
  | bulkRead (r : Reg) (len : Nat) (ok : Bool)
  | updateBits (r : Reg) (mask v : Nat) (ok : Bool)
  | regulatorEnable (ok : Bool)
  | regulatorDisable
  | log
  | scheduleResetWork
  | msgReceived (bytes : List Nat)
  | hardReset
  | transmitComplete (st : TxStatus)
  deriving DecidableEq

/-- Machine state threaded through the embedded driver functions. -/
structure S where
  regs : Reg → Nat
  rxBuf : Nat → Nat
  failures : List Bool
  events : List Event

/-- Append one event to the trace. -/
def S.push (s : S) (e : Event) : S :=
  { s with events := s.events ++ [e] }

/-- Consume the next slot of the failure oracle (false when exhausted). -/
def nextFail (s : S) : Bool × S :=
  match s.failures with
  | [] => (false, s)
  | b :: rest => (b, { s with failures := rest })

/-- Pointwise update of the register file. -/
def setReg (f : Reg → Nat) (r : Reg) (v : Nat) : Reg → Nat :=
  fun r2 => if r2 = r then v else f r2

/-- Generic I/O error return value (the embedding uses -5, i.e. -EIO). -/
def ioErr : Int := -5

/-- The -EBUSY return value. -/
def busyErr : Int := -16

/-- regmap_write: one oracle slot; on success the register is updated. -/
def regmap_write (s : S) (r : Reg) (v : Nat) : Int × S :=
  let p := nextFail s
  if p.1 then (ioErr, p.2.push (.write r v false))
  else (0, { p.2.push (.write r v true) with regs := setReg p.2.regs r v })

/-- regmap_read: one oracle slot; returns the register value. -/
def regmap_read (s : S) (r : Reg) : Int × Nat × S :=
  let p := nextFail s
  if p.1 then (ioErr, p.2.regs r, p.2.push (.read r false))
  else (0, p.2.regs r, p.2.push (.read r true))

/-- regmap_bulk_write: one oracle slot; data is recorded in the trace
(the TX buffer registers are write-through FIFOs, never read back). -/
def regmap_bulk_write (s : S) (r : Reg) (data : List Nat) : Int × S :=
  let p := nextFail s
  if p.1 then (ioErr, p.2.push (.bulkWrite r data false))
  else (0, p.2.push (.bulkWrite r data true))

/-- regmap_bulk_read: one oracle slot; returns len bytes of the RX stream. -/
def regmap_bulk_read (s : S) (r : Reg) (len : Nat) : Int × List Nat × S :=
  let p := nextFail s
  if p.1 then (ioErr, [], p.2.push (.bulkRead r len false))
  else (0, (List.range len).map p.2.rxBuf, p.2.push (.bulkRead r len true))

/-- regmap_update_bits: read-modify-write, new = (old AND NOT mask) OR
(val AND mask); one oracle slot. -/
def regmap_update_bits (s : S) (r : Reg) (mask v : Nat) : Int × S :=
  let p := nextFail s
  if p.1 then (ioErr, p.2.push (.updateBits r mask v false))
  else
    let old := p.2.regs r
    let nv := (old ^^^ (old &&& mask)) ||| (v &&& mask)
    (0, { p.2.push (.updateBits r mask v true) with regs := setReg p.2.regs r nv })

/-- regulator_enable on vdd_pdphy: one oracle slot. -/
def regulator_enable (s : S) : Int × S :=
  let p := nextFail s
  if p.1 then (ioErr, p.2.push (.regulatorEnable false))
  else (0, p.2.push (.regulatorEnable true))

/-- regulator_disable on vdd_pdphy (void in the driver). -/
def regulator_disable (s : S) : S :=
  s.push .regulatorDisable

/-- Modelled from the spec: the header qcom_pmic_tcpm_pdphy.h is not under
src, so the frame-filter bit constants come from the spec's register
description (SOP-acceptance and hard-reset-frame-acceptance bits of the
frame-filter register, at their hardware positions 0 and 5). -/
def FRAME_FILTER_EN_SOP : Nat := 1

/-- Modelled from the spec: hard-reset-frame acceptance bit, bit 5. -/
def FRAME_FILTER_EN_HARD_RESET : Nat := 32

/-- Modelled from the spec: send-message bit of the TX control register,
bit 0. -/
def TX_CONTROL_SEND_MSG : Nat := 1

/-- Modelled from the spec: send-signal bit of the TX control register,
bit 1. -/
def TX_CONTROL_SEND_SIGNAL : Nat := 2

/-- Modelled from the spec: frame-type field of the TX control register,
3 bits wide at bit 2. -/
def TX_CONTROL_FRAME_TYPE (n : Nat) : Nat := (n &&& 7) <<< 2

/-- Modelled from the spec: retry-count field of the TX control register,
2 bits wide at bit 5. -/
def TX_CONTROL_RETRY_COUNT (n : Nat) : Nat := (n &&& 3) <<< 5

/-- Modelled from the spec: data-role bit of the message-config register,
bit 3 (matching the shift data_role_host << 3 in set_roles). -/
def MSG_CONFIG_PORT_DATA_ROLE : Nat := 8

/-- Modelled from the spec: power-role bit of the message-config register,
bit 2 (matching the shift power_role_src << 2 in set_roles). -/
def MSG_CONFIG_PORT_POWER_ROLE : Nat := 4

/-- Modelled from the spec: protocol-revision field of the message-config
register, the low two bits. -/
def MSG_CONFIG_SPEC_REV_MASK : Nat := 3

/-- Modelled from the spec: enable bit of the PHY-enable register, bit 0. -/
def CONTROL_ENABLE : Nat := 1

/-- PD revision encoding of linux/usb/pd.h: revision 2.0. -/
def PD_REV20 : Nat := 1

/-- PD revision encoding of linux/usb/pd.h: revision 3.0. -/
def PD_REV30 : Nat := 2

/-- Object count field of a PD message header (bits 12..14),
pd_header_cnt_le of linux/usb/pd.h. -/
def pd_header_cnt (h : Nat) : Nat := (h >>> 12) &&& 7

/-- Revision field of a PD message header (bits 6..7),
pd_header_rev of linux/usb/pd.h. -/
def pd_header_rev (h : Nat) : Nat := (h >>> 6) &&& 3

/-- A PD message: 16-bit header plus the 28-byte payload area
(struct pd_message of linux/usb/pd.h); payload is the byte at each index. -/
structure PdMessage where
  header : Nat
  payload : Nat → Nat

/-- Little-endian bytes of the 16-bit header, as bulk-written to the TX
header buffer register. -/
def headerBytes (h : Nat) : List Nat := [h &&& 255, (h >>> 8) &&& 255]

/-- enum tcpm_transmit_type of linux/usb/tcpm.h. -/
inductive TxType where
  | sop
  | sopPrime
  | sopPrimePrime
  | sopDebugPrime
  | sopDebugPrimePrime
  | hardReset
  | cableReset
  | bistMode2
  deriving DecidableEq

/-- Numeric value of enum tcpm_transmit_type. -/
def TxType.toNat : TxType → Nat
  | .sop => 0
  | .sopPrime => 1
  | .sopPrimePrime => 2
  | .sopDebugPrime => 3
  | .sopDebugPrimePrime => 4
  | .hardReset => 5
  | .cableReset => 6
  | .bistMode2 => 7

/-- qcom_pmic_tcpm_pdphy_reset_on: write 0 to TX control, then (only if
that succeeded) write 0 to the frame filter; a failure of either write
jumps to the error label and logs. -/
def qcom_pmic_tcpm_pdphy_reset_on (s : S) : S :=
  let p := regmap_write s .txControl 0
  if p.1 ≠ 0 then p.2.push .log
  else
    let q := regmap_write p.2 .frameFilter 0
    if q.1 ≠ 0 then q.2.push .log else q.2

/-- qcom_pmic_tcpm_pdphy_reset_off: write SOP and hard-reset acceptance
bits to the frame filter; a failure is logged (return value discarded). -/
def qcom_pmic_tcpm_pdphy_reset_off (s : S) : S :=
  let p := regmap_write s .frameFilter
    (FRAME_FILTER_EN_SOP ||| FRAME_FILTER_EN_HARD_RESET)
  if p.1 ≠ 0 then p.2.push .log else p.2

/-- qcom_pmic_tcpm_pdphy_sig_reset_work: under the lock run reset_on then
reset_off, release the lock, then call tcpm_pd_hard_reset. -/
def qcom_pmic_tcpm_pdphy_sig_reset_work (s : S) : S :=
  let s1 := s.push .lock
  let s2 := qcom_pmic_tcpm_pdphy_reset_on s1
  let s3 := qcom_pmic_tcpm_pdphy_reset_off s2
  let s4 := s3.push .unlock
  s4.push .hardReset

/-- qcom_pmic_tcpm_pdphy_clear_tx_control_reg: write 0 to TX control, then
read it back purely as a latch delay; either failure is logged. -/
def qcom_pmic_tcpm_pdphy_clear_tx_control_reg (s : S) : Int × S :=
  let p := regmap_write s .txControl 0
  if p.1 ≠ 0 then (p.1, p.2.push .log)
  else
    let q := regmap_read p.2 .txControl
    if q.1 ≠ 0 then (q.1, q.2.2.push .log) else (q.1, q.2.2)

/-- qcom_pmic_tcpm_pdphy_pd_transmit_signal: under the lock, clear TX
control, build the signal control value (retry count from negotiated_rev,
frame-type bit for cable or hard reset) and write it. -/
def qcom_pmic_tcpm_pdphy_pd_transmit_signal (s : S) (t : TxType)
    (negotiated_rev : Nat) : Int × S :=
  let s1 := s.push .lock
  let p := qcom_pmic_tcpm_pdphy_clear_tx_control_reg s1
  if p.1 ≠ 0 then (p.1, p.2.push .unlock)
  else
    let v1 := TX_CONTROL_SEND_SIGNAL |||
      (if negotiated_rev = PD_REV30 then TX_CONTROL_RETRY_COUNT 2
       else TX_CONTROL_RETRY_COUNT 3)
    let v2 := if t = .cableReset ∨ t = .hardReset
      then v1 ||| TX_CONTROL_FRAME_TYPE 1 else v1
    let q := regmap_write p.2 .txControl v2
    (q.1, q.2.push .unlock)

/-- Tail of qcom_pmic_tcpm_pdphy_pd_transmit_payload after the optional
payload bulk-write: write the size register (the hardware length-minus-one
encoding 2 + 4*cnt - 1), clear TX control again, then write the arming
control value whose retry count comes from the revision field of the
message header; each failure exits through the unlock at the done label. -/
def pd_transmit_payload_finish (s : S) (t : TxType) (msg : PdMessage) : Int × S :=
  let txsize_len := 2 + pd_header_cnt msg.header * 4 - 1
  let p4 := regmap_write s .txSize txsize_len
  if p4.1 ≠ 0 then (p4.1, p4.2.push .unlock)
  else
    let p5 := qcom_pmic_tcpm_pdphy_clear_tx_control_reg p4.2
    if p5.1 ≠ 0 then (p5.1, p5.2.push .unlock)
    else
      let v := TX_CONTROL_FRAME_TYPE t.toNat ||| TX_CONTROL_SEND_MSG |||
        (if pd_header_rev msg.header = PD_REV30
         then TX_CONTROL_RETRY_COUNT 2 else TX_CONTROL_RETRY_COUNT 3)
      let p6 := regmap_write p5.2 .txControl v
      (p6.1, p6.2.push .unlock)

/-- Body of qcom_pmic_tcpm_pdphy_pd_transmit_payload up to the unlock at
the done label: check RX acknowledge (busy if non-zero), clear TX control,
bulk-write the header, bulk-write the payload when the object count is
non-zero, then the tail above. -/
def pd_transmit_payload_body (s : S) (t : TxType) (msg : PdMessage) : Int × S :=
  let s1 := s.push .lock
  let p0 := regmap_read s1 .rxAcknowledge
  if p0.1 ≠ 0 then (p0.1, p0.2.2.push .unlock)
  else if p0.2.1 ≠ 0 then (busyErr, (p0.2.2.push .log).push .unlock)
  else
    let p1 := qcom_pmic_tcpm_pdphy_clear_tx_control_reg p0.2.2
    if p1.1 ≠ 0 then (p1.1, p1.2.push .unlock)
    else
      let txbuf_len := pd_header_cnt msg.header * 4
      let p2 := regmap_bulk_write p1.2 .txBufferHdr (headerBytes msg.header)
      if p2.1 ≠ 0 then (p2.1, p2.2.push .unlock)
      else
        if txbuf_len ≠ 0 then
          let p3 := regmap_bulk_write p2.2 .txBufferData
            ((List.range txbuf_len).map msg.payload)
          if p3.1 ≠ 0 then (p3.1, p3.2.push .unlock)
          else pd_transmit_payload_finish p3.2 t msg
        else pd_transmit_payload_finish p2.2 t msg

/-- qcom_pmic_tcpm_pdphy_pd_transmit_payload: the body above followed by
the error log after the unlock when the result is non-zero.  The
negotiated_rev argument of the C function is taken but never used: the
retry count of the arming write comes from the header of msg. -/
def qcom_pmic_tcpm_pdphy_pd_transmit_payload (s : S) (t : TxType)
    (msg : PdMessage) (negotiated_rev : Nat) : Int × S :=
  let _ := negotiated_rev
  let p := pd_transmit_payload_body s t msg
  if p.1 ≠ 0 then (p.1, p.2.push .log) else p

/-- Bytes of the local struct pd_message buffer handed upward: the bytes
actually bulk-read, then the remaining (uninitialized) stack bytes of the
30-byte struct, supplied by the garbage function. -/
def msgBufBytes (rd : List Nat) (garbage : Nat → Nat) : List Nat :=
  rd ++ ((List.range 30).drop rd.length).map garbage

/-- qcom_pmic_tcpm_pdphy_pd_receive: under the lock read the RX size
register; when 1 <= size <= 28 read the status register, bulk-read
size + 1 bytes into the local message, and write 0 to RX acknowledge;
after the unlock, call tcpm_pd_receive whenever ret is 0 (note: also on
the invalid-size path, where the local message is still uninitialized
garbage).  The garbage argument is the arbitrary initial content of the
uninitialized local struct pd_message. -/
def qcom_pmic_tcpm_pdphy_pd_receive (s : S) (garbage : Nat → Nat) : S :=
  let s1 := s.push .lock
  let p0 := regmap_read s1 .rxSize
  if p0.1 ≠ 0 then p0.2.2.push .unlock
  else if p0.2.1 < 1 ∨ p0.2.1 > 28 then
    (p0.2.2.push .unlock).push (.msgReceived (msgBufBytes [] garbage))
  else
    let sz := p0.2.1 + 1
    let p1 := regmap_read p0.2.2 .rxStatus
    if p1.1 ≠ 0 then p1.2.2.push .unlock
    else
      let p2 := regmap_bulk_read p1.2.2 .rxBuffer sz
      if p2.1 ≠ 0 then p2.2.2.push .unlock
      else
        let p3 := regmap_write p2.2.2 .rxAcknowledge 0
        if p3.1 ≠ 0 then p3.2.push .unlock
        else (p3.2.push .unlock).push (.msgReceived (msgBufBytes p2.2.1 garbage))

/-- The interrupt identifiers bound to the seven interrupt lines. -/
inductive Virq where
  | sigTx
  | sigRx
  | msgTx
  | msgRx
  | msgTxFail
  | msgTxDiscard
  | msgRxDiscard
  deriving DecidableEq

/-- qcom_pmic_tcpm_pdphy_isr: dispatch on the interrupt identifier. -/
def qcom_pmic_tcpm_pdphy_isr (s : S) (virq : Virq) (garbage : Nat → Nat) : S :=
  match virq with
  | .sigTx => s.push .log
  | .sigRx => s.push .scheduleResetWork
  | .msgTx => s.push (.transmitComplete .success)
  | .msgRx => qcom_pmic_tcpm_pdphy_pd_receive s garbage
  | .msgTxFail => s.push (.transmitComplete .failed)
  | .msgTxDiscard => s.push (.transmitComplete .discarded)
  | .msgRxDiscard => s

/-- qcom_pmic_tcpm_pdphy_set_pd_rx: write the negation of the on flag to
the RX acknowledge register, under the lock. -/
def qcom_pmic_tcpm_pdphy_set_pd_rx (s : S) (onFlag : Bool) : Int × S :=
  let s1 := s.push .lock
  let p := regmap_write s1 .rxAcknowledge (if onFlag then 0 else 1)
  (p.1, p.2.push .unlock)

/-- qcom_pmic_tcpm_pdphy_set_roles: read-modify-write the two role bits of
the message-config register, under the lock. -/
def qcom_pmic_tcpm_pdphy_set_roles (s : S) (data_role_host power_role_src : Bool) :
    Int × S :=
  let s1 := s.push .lock
  let p := regmap_update_bits s1 .msgConfig
    (MSG_CONFIG_PORT_DATA_ROLE ||| MSG_CONFIG_PORT_POWER_ROLE)
    ((if data_role_host then 8 else 0) ||| (if power_role_src then 4 else 0))
  (p.1, p.2.push .unlock)

/-- qcom_pmic_tcpm_pdphy_enable: power the supply on, set the revision
field to PD 2.0, toggle the PHY-enable register (0 then the enable bit),
then reset_off; a failure of any of the three register steps after
power-on powers the supply off, logs and returns the failure.  The
reset_off call discards its own error, so ret stays 0 there. -/
def qcom_pmic_tcpm_pdphy_enable (s : S) : Int × S :=
  let p0 := regulator_enable s
  if p0.1 ≠ 0 then (p0.1, p0.2)
  else
    let p1 := regmap_update_bits p0.2 .msgConfig MSG_CONFIG_SPEC_REV_MASK PD_REV20
    if p1.1 ≠ 0 then (p1.1, (regulator_disable p1.2).push .log)
    else
      let p2 := regmap_write p1.2 .enControl 0
      if p2.1 ≠ 0 then (p2.1, (regulator_disable p2.2).push .log)
      else
        let p3 := regmap_write p2.2 .enControl CONTROL_ENABLE
        if p3.1 ≠ 0 then (p3.1, (regulator_disable p3.2).push .log)
        else
          (0, qcom_pmic_tcpm_pdphy_reset_off p3.2)

/-! Observation helpers over traces, and concrete states for witnesses. -/

/-- Retry-count field of a TX control value (bits 5..6). -/
def retryField (v : Nat) : Nat := (v >>> 5) &&& 3

/-- Values successfully written to the TX control register that arm a
transmission, i.e. whose send-message or send-signal bit is set. -/
def sentControlVals : List Event → List Nat
  | [] => []
  | .write .txControl v true :: l =>
      if v &&& 3 = 0 then sentControlVals l else v :: sentControlVals l
  | _ :: l => sentControlVals l

/-- Values successfully written to the TX size register. -/
def txSizeWrites : List Event → List Nat
  | [] => []
  | .write .txSize v true :: l => v :: txSizeWrites l
  | _ :: l => txSizeWrites l

/-- Values successfully written to the RX acknowledge register. -/
def ackWrites : List Event → List Nat
  | [] => []
  | .write .rxAcknowledge v true :: l => v :: ackWrites l
  | _ :: l => ackWrites l

/-- Message buffers handed to tcpm_pd_receive. -/
def msgsDelivered : List Event → List (List Nat)
  | [] => []
  | .msgReceived bytes :: l => bytes :: msgsDelivered l
  | _ :: l => msgsDelivered l

/-- Number of occurrences of one event in a trace. -/
def countEvent (e : Event) : List Event → Nat
  | [] => 0
  | e2 :: l => (if e2 = e then 1 else 0) + countEvent e l

/-- Whether the trace holds any write attempt (plain, bulk or
update-bits, successful or not) touching register r. -/
def writesToReg (l : List Event) (r : Reg) : Bool :=
  l.any fun e =>
    match e with
    | .write r2 _ _ => r2 = r
    | .bulkWrite r2 _ _ => r2 = r
    | .updateBits r2 _ _ _ => r2 = r
    | _ => false

/-- Trace of one reset_on run as a function of the outcomes of its two
register writes (the second write is reached only when the first one
succeeds). -/
def resetOnEvents (f1 f2 : Bool) : List Event :=
  if f1 then [.write .txControl 0 false, .log]
  else if f2 then [.write .txControl 0 true, .write .frameFilter 0 false, .log]
  else [.write .txControl 0 true, .write .frameFilter 0 true]

/-- Trace of one clear_tx_control_reg run as a function of the outcomes
of its write and its readback (the readback is reached only when the
write succeeds). -/
def clearEvents (f1 f2 : Bool) : List Event :=
  if f1 then [.write .txControl 0 false, .log]
  else if f2 then [.write .txControl 0 true, .read .txControl false, .log]
  else [.write .txControl 0 true, .read .txControl true]

/-- Trace of one reset_off run as a function of its write outcome. -/
def resetOffEvents (f : Bool) : List Event :=
  if f then
    [.write .frameFilter (FRAME_FILTER_EN_SOP ||| FRAME_FILTER_EN_HARD_RESET) false, .log]
  else
    [.write .frameFilter (FRAME_FILTER_EN_SOP ||| FRAME_FILTER_EN_HARD_RESET) true]

/-- A concrete start state: all registers 0, RX stream byte i is 100+i,
no injected I/O failures, empty trace. -/
def initS : S :=
  { regs := fun _ => 0, rxBuf := fun i => 100 + i, failures := [], events := [] }

/-- Concrete uninitialized-stack content for the receive path. -/
def garbage7 : Nat → Nat := fun _ => 7

/-- Concrete state whose RX size register reads 5. -/
def rxSize5S : S := { initS with regs := setReg initS.regs .rxSize 5 }

/-- Concrete state whose RX acknowledge register reads 1 (RX pending). -/
def rxBusyS : S := { initS with regs := setReg initS.regs .rxAcknowledge 1 }

/-- Concrete state injecting a failure into the first register write. -/
def firstWriteFailS : S := { initS with failures := [true] }

/-- Concrete state for enable in which only the reset_off frame-filter
write (the fifth I/O call) fails. -/
def resetOffFailS : S := { initS with failures := [false, false, false, false, true] }

/-- Concrete PD message whose header has revision 2.0 (wire value 1 in
bits 6..7) and object count 0. -/
def msgRev20 : PdMessage := { header := 64, payload := fun _ => 0 }

/-- Concrete PD message whose header has revision 3.0 (wire value 2 in
bits 6..7) and object count 2. -/
def msgRev30Cnt2 : PdMessage := { header := 128 ||| (2 <<< 12), payload := fun i => 10 + i }

/-- Concrete state for enable whose revision-field write (the second I/O
call) fails. -/
def enableFail2S : S := { initS with failures := [false, true, false, false, false] }

/-- The interrupt that reports each transmit-complete status. -/
def statusVirq : TxStatus → Virq
  | .success => .msgTx
  | .failed => .msgTxFail
  | .discarded => .msgTxDiscard

/-! Helper lemmas: per-primitive specifications over an arbitrary failure
oracle, and projection computations over traces. -/

theorem push_events (s : S) (e : Event) : (s.push e).events = s.events ++ [e] := rfl

theorem push_regs (s : S) (e : Event) : (s.push e).regs = s.regs := rfl

theorem push_rxBuf (s : S) (e : Event) : (s.push e).rxBuf = s.rxBuf := rfl

theorem ioErr_ne_zero : ioErr ≠ 0 := by decide

theorem busyErr_ne_zero : busyErr ≠ 0 := by decide

theorem not_zero_ne : ¬ ((0 : Int) ≠ 0) := by decide

theorem ite_ok_true : (if true = true then (0 : Int) else ioErr) = 0 := rfl

theorem ite_ok_false : (if false = true then (0 : Int) else ioErr) = ioErr := rfl

theorem ite_or_true : (if true = true then ioErr else (0 : Int)) = ioErr := rfl

theorem ite_or_false : (if false = true then ioErr else (0 : Int)) = 0 := rfl

theorem regmap_write_spec (s : S) (r : Reg) (v : Nat) :
    ∃ ok : Bool, ∃ s2 : S,
      regmap_write s r v = ((if ok then 0 else ioErr), s2) ∧
      s2.events = s.events ++ [Event.write r v ok] ∧
      s2.regs = (if ok then setReg s.regs r v else s.regs) ∧
      s2.rxBuf = s.rxBuf := by
  rcases hF : s.failures with _ | ⟨b, rest⟩
  · refine ⟨true, ⟨setReg s.regs r v, s.rxBuf, s.failures, s.events ++ [Event.write r v true]⟩,
      ?_, rfl, rfl, rfl⟩
    simp [regmap_write, nextFail, hF, S.push]
  · cases b
    · refine ⟨true, ⟨setReg s.regs r v, s.rxBuf, rest, s.events ++ [Event.write r v true]⟩,
        ?_, rfl, rfl, rfl⟩
      simp [regmap_write, nextFail, hF, S.push]
    · refine ⟨false, ⟨s.regs, s.rxBuf, rest, s.events ++ [Event.write r v false]⟩,
        ?_, rfl, rfl, rfl⟩
      simp [regmap_write, nextFail, hF, S.push, ioErr]

theorem regmap_read_spec (s : S) (r : Reg) :
    ∃ ok : Bool, ∃ s2 : S,
      regmap_read s r = ((if ok then 0 else ioErr), s.regs r, s2) ∧
      s2.events = s.events ++ [Event.read r ok] ∧
      s2.regs = s.regs ∧
      s2.rxBuf = s.rxBuf := by
  rcases hF : s.failures with _ | ⟨b, rest⟩
  · refine ⟨true, ⟨s.regs, s.rxBuf, s.failures, s.events ++ [Event.read r true]⟩,
      ?_, rfl, rfl, rfl⟩
    simp [regmap_read, nextFail, hF, S.push]
  · cases b
    · refine ⟨true, ⟨s.regs, s.rxBuf, rest, s.events ++ [Event.read r true]⟩,
        ?_, rfl, rfl, rfl⟩
      simp [regmap_read, nextFail, hF, S.push]
    · refine ⟨false, ⟨s.regs, s.rxBuf, rest, s.events ++ [Event.read r false]⟩,
        ?_, rfl, rfl, rfl⟩
      simp [regmap_read, nextFail, hF, S.push, ioErr]

theorem regmap_bulk_write_spec (s : S) (r : Reg) (data : List Nat) :
    ∃ ok : Bool, ∃ s2 : S,
      regmap_bulk_write s r data = ((if ok then 0 else ioErr), s2) ∧
      s2.events = s.events ++ [Event.bulkWrite r data ok] ∧
      s2.regs = s.regs ∧
      s2.rxBuf = s.rxBuf := by
  rcases hF : s.failures with _ | ⟨b, rest⟩
  · refine ⟨true, ⟨s.regs, s.rxBuf, s.failures, s.events ++ [Event.bulkWrite r data true]⟩,
      ?_, rfl, rfl, rfl⟩
    simp [regmap_bulk_write, nextFail, hF, S.push]
  · cases b
    · refine ⟨true, ⟨s.regs, s.rxBuf, rest, s.events ++ [Event.bulkWrite r data true]⟩,
        ?_, rfl, rfl, rfl⟩
      simp [regmap_bulk_write, nextFail, hF, S.push]
    · refine ⟨false, ⟨s.regs, s.rxBuf, rest, s.events ++ [Event.bulkWrite r data false]⟩,
        ?_, rfl, rfl, rfl⟩
      simp [regmap_bulk_write, nextFail, hF, S.push, ioErr]

theorem clear_tx_control_reg_spec (s : S) :
    ∃ f1 f2 : Bool, ∃ s2 : S,
      qcom_pmic_tcpm_pdphy_clear_tx_control_reg s
        = ((if f1 || f2 then ioErr else 0), s2) ∧
      s2.events = s.events ++ clearEvents f1 f2 ∧
      s2.regs = (if f1 then s.regs else setReg s.regs .txControl 0) ∧
      s2.rxBuf = s.rxBuf := by
  obtain ⟨ok1, sa, hEq1, hEv1, hRegs1, hBuf1⟩ := regmap_write_spec s .txControl 0
  cases ok1
  · refine ⟨true, false, sa.push .log, ?_, ?_, ?_, ?_⟩
    · simp [qcom_pmic_tcpm_pdphy_clear_tx_control_reg, hEq1, ioErr]
    · simp [push_events, hEv1, clearEvents]
    · simp [push_regs, hRegs1]
    · simpa [S.push] using hBuf1
  · obtain ⟨ok2, sb, hEq2, hEv2, hRegs2, hBuf2⟩ := regmap_read_spec sa .txControl
    cases ok2
    · refine ⟨false, true, sb.push .log, ?_, ?_, ?_, ?_⟩
      · simp [qcom_pmic_tcpm_pdphy_clear_tx_control_reg, hEq1, hEq2, ioErr]
      · simp [push_events, hEv2, hEv1, clearEvents]
      · simp [push_regs, hRegs2, hRegs1]
      · simp [S.push, hBuf2, hBuf1]
    · refine ⟨false, false, sb, ?_, ?_, ?_, ?_⟩
      · simp [qcom_pmic_tcpm_pdphy_clear_tx_control_reg, hEq1, hEq2]
      · simp [hEv2, hEv1, clearEvents]
      · simp [hRegs2, hRegs1]
      · simp [hBuf2, hBuf1]

theorem sentControlVals_append (l1 l2 : List Event) :
    sentControlVals (l1 ++ l2) = sentControlVals l1 ++ sentControlVals l2 := by
  induction l1 with
  | nil => rfl
  | cons e l ih =>
      cases e with
      | write r v ok =>
          cases r <;> cases ok <;> (simp [sentControlVals, ih]; try (split <;> simp))
      | _ => simp [sentControlVals, ih]

theorem sentControlVals_clearEvents (f1 f2 : Bool) :
    sentControlVals (clearEvents f1 f2) = [] := by
  cases f1 <;> cases f2 <;> rfl

theorem mem_sentControl_write_unlock (v V : Nat) (ok : Bool)
    (hv : v ∈ sentControlVals (Event.write .txControl V ok :: [Event.unlock])) :
    v = V ∧ ok = true := by
  cases ok <;> (simp [sentControlVals] at hv; try split at hv)
  all_goals simp_all [sentControlVals]

theorem payload_sent_eq (s : S) (t : TxType) (msg : PdMessage) (rev : Nat) :
    sentControlVals (qcom_pmic_tcpm_pdphy_pd_transmit_payload s t msg rev).2.events
      = sentControlVals (pd_transmit_payload_body s t msg).2.events := by
  simp only [qcom_pmic_tcpm_pdphy_pd_transmit_payload]
  split
  · rw [push_events, sentControlVals_append]
    simp [sentControlVals]
  · rfl

theorem finish_retry (s : S) (t : TxType) (msg : PdMessage)
    (hSent : sentControlVals s.events = []) :
    ∀ v ∈ sentControlVals (pd_transmit_payload_finish s t msg).2.events,
      retryField v = if pd_header_rev msg.header = PD_REV30 then 2 else 3 := by
  obtain ⟨ok4, sf, hEq4, hEv4, hRegs4, hBuf4⟩ := regmap_write_spec s
    .txSize (2 + pd_header_cnt msg.header * 4 - 1)
  have hSentf : sentControlVals sf.events = [] := by
    rw [hEv4, sentControlVals_append, hSent, List.nil_append]
    simp [sentControlVals]
  cases ok4
  · rw [ite_ok_false] at hEq4
    simp only [pd_transmit_payload_finish, hEq4]
    rw [if_pos ioErr_ne_zero]
    intro v hv
    rw [push_events, sentControlVals_append, hSentf, List.nil_append] at hv
    simp [sentControlVals] at hv
  · rw [ite_ok_true] at hEq4
    simp only [pd_transmit_payload_finish, hEq4]
    rw [if_neg not_zero_ne]
    obtain ⟨g3, g4, sg, hEqg, hEvg, hRegsg, hBufg⟩ := clear_tx_control_reg_spec sf
    have hSentg : sentControlVals sg.events = [] := by
      rw [hEvg, sentControlVals_append, hSentf, List.nil_append, sentControlVals_clearEvents]
    cases hOrg : (g3 || g4)
    · rw [hOrg, ite_or_false] at hEqg
      simp only [hEqg]
      rw [if_neg not_zero_ne]
      obtain ⟨ok5, sh, hEq5, hEv5, hRegs5, hBuf5⟩ := regmap_write_spec sg
        .txControl (TX_CONTROL_FRAME_TYPE t.toNat ||| TX_CONTROL_SEND_MSG |||
          (if pd_header_rev msg.header = PD_REV30
           then TX_CONTROL_RETRY_COUNT 2 else TX_CONTROL_RETRY_COUNT 3))
      simp only [hEq5]
      intro v hv
      rw [push_events, hEv5, List.append_assoc, sentControlVals_append, hSentg,
        List.nil_append, List.singleton_append] at hv
      cases ok5
      · simp [sentControlVals] at hv
      · obtain ⟨hvV, -⟩ := mem_sentControl_write_unlock _ _ _ hv
        subst hvV
        by_cases hRev : pd_header_rev msg.header = PD_REV30 <;> cases t <;>
          simp +decide [hRev, retryField, TX_CONTROL_SEND_MSG, TX_CONTROL_RETRY_COUNT,
            TX_CONTROL_FRAME_TYPE, TxType.toNat]
    · rw [hOrg, ite_or_true] at hEqg
      simp only [hEqg]
      rw [if_pos ioErr_ne_zero]
      intro v hv
      rw [push_events, sentControlVals_append, hSentg, List.nil_append] at hv
      simp [sentControlVals] at hv


theorem body_retry (s : S) (t : TxType) (msg : PdMessage) (hs : s.events = []) :
    ∀ v ∈ sentControlVals (pd_transmit_payload_body s t msg).2.events,
      retryField v = if pd_header_rev msg.header = PD_REV30 then 2 else 3 := by
  obtain ⟨ok0, sr, hEq0, hEv0, hRegs0, hBuf0⟩ := regmap_read_spec (s.push .lock) .rxAcknowledge
  have hSentr : sentControlVals sr.events = [] := by
    rw [hEv0, push_events, hs]
    simp [sentControlVals_append, sentControlVals]
  cases ok0
  · rw [ite_ok_false] at hEq0
    simp only [pd_transmit_payload_body, hEq0]
    rw [if_pos ioErr_ne_zero]
    intro v hv
    rw [push_events, sentControlVals_append, hSentr, List.nil_append] at hv
    simp [sentControlVals] at hv
  · rw [ite_ok_true] at hEq0
    simp only [pd_transmit_payload_body, hEq0]
    rw [if_neg not_zero_ne]
    by_cases hAck : (s.push .lock).regs .rxAcknowledge ≠ 0
    · rw [if_pos hAck]
      intro v hv
      rw [push_events, push_events, List.append_assoc, sentControlVals_append, hSentr,
        List.nil_append] at hv
      simp [sentControlVals] at hv
    · rw [if_neg hAck]
      obtain ⟨g1, g2, sc, hEqc, hEvc, hRegsc, hBufc⟩ := clear_tx_control_reg_spec sr
      have hSentc : sentControlVals sc.events = [] := by
        rw [hEvc, sentControlVals_append, hSentr, List.nil_append, sentControlVals_clearEvents]
      cases hOrc : (g1 || g2)
      · rw [hOrc, ite_or_false] at hEqc
        simp only [hEqc]
        rw [if_neg not_zero_ne]
        obtain ⟨ok2, sd, hEq2, hEv2, hRegs2, hBuf2⟩ := regmap_bulk_write_spec sc
          .txBufferHdr (headerBytes msg.header)
        have hSentd : sentControlVals sd.events = [] := by
          rw [hEv2, sentControlVals_append, hSentc, List.nil_append]
          simp [sentControlVals]
        cases ok2
        · rw [ite_ok_false] at hEq2
          simp only [hEq2]
          rw [if_pos ioErr_ne_zero]
          intro v hv
          rw [push_events, sentControlVals_append, hSentd, List.nil_append] at hv
          simp [sentControlVals] at hv
        · rw [ite_ok_true] at hEq2
          simp only [hEq2]
          rw [if_neg not_zero_ne]
          by_cases hCnt : pd_header_cnt msg.header * 4 ≠ 0
          · rw [if_pos hCnt]
            obtain ⟨ok3, se, hEq3, hEv3, hRegs3, hBuf3⟩ := regmap_bulk_write_spec sd
              .txBufferData ((List.range (pd_header_cnt msg.header * 4)).map msg.payload)
            have hSente : sentControlVals se.events = [] := by
              rw [hEv3, sentControlVals_append, hSentd, List.nil_append]
              simp [sentControlVals]
            cases ok3
            · rw [ite_ok_false] at hEq3
              simp only [hEq3]
              rw [if_pos ioErr_ne_zero]
              intro v hv
              rw [push_events, sentControlVals_append, hSente, List.nil_append] at hv
              simp [sentControlVals] at hv
            · rw [ite_ok_true] at hEq3
              simp only [hEq3]
              rw [if_neg not_zero_ne]
              exact finish_retry se t msg hSente
          · rw [if_neg hCnt]
            exact finish_retry sd t msg hSentd
      · rw [hOrc, ite_or_true] at hEqc
        simp only [hEqc]
        rw [if_pos ioErr_ne_zero]
        intro v hv
        rw [push_events, sentControlVals_append, hSentc, List.nil_append] at hv
        simp [sentControlVals] at hv

/-- Claim C1 (amended): every armed value written to the TX control
register has retry-count field 2 when the relevant protocol revision is
3.0 and 3 otherwise, where transmit_signal selects by negotiated_rev and
transmit_payload selects by the revision field of the message header (not
by negotiated_rev, which it ignores). -/
theorem c1_amended_retry_counts (s : S) (t : TxType) (msg : PdMessage) (rev : Nat)
    (hs : s.events = []) :
    (∀ v ∈ sentControlVals (qcom_pmic_tcpm_pdphy_pd_transmit_signal s t rev).2.events,
        retryField v = if rev = PD_REV30 then 2 else 3) ∧
    (∀ v ∈ sentControlVals
        (qcom_pmic_tcpm_pdphy_pd_transmit_payload s t msg rev).2.events,
        retryField v = if pd_header_rev msg.header = PD_REV30 then 2 else 3) := by
  constructor
  · obtain ⟨f1, f2, s2, hEq, hEv, hRegs, hBuf⟩ := clear_tx_control_reg_spec (s.push .lock)
    have hSent2 : sentControlVals s2.events = [] := by
      rw [hEv, push_events, hs]
      simp [sentControlVals_append, sentControlVals_clearEvents, sentControlVals]
    cases hOr : (f1 || f2)
    · rw [hOr, ite_or_false] at hEq
      obtain ⟨ok, s3, hEq3, hEv3, _, _⟩ := regmap_write_spec s2 .txControl
        (if t = .cableReset ∨ t = .hardReset
          then (TX_CONTROL_SEND_SIGNAL |||
            (if rev = PD_REV30 then TX_CONTROL_RETRY_COUNT 2 else TX_CONTROL_RETRY_COUNT 3)) |||
            TX_CONTROL_FRAME_TYPE 1
          else TX_CONTROL_SEND_SIGNAL |||
            (if rev = PD_REV30 then TX_CONTROL_RETRY_COUNT 2 else TX_CONTROL_RETRY_COUNT 3))
      simp only [qcom_pmic_tcpm_pdphy_pd_transmit_signal, hEq, hEq3]
      rw [if_neg not_zero_ne]
      intro v hv
      rw [push_events, hEv3, List.append_assoc, sentControlVals_append, hSent2,
        List.nil_append, List.singleton_append] at hv
      cases ok
      · simp [sentControlVals] at hv
      · obtain ⟨hvV, -⟩ := mem_sentControl_write_unlock _ _ _ hv
        subst hvV
        by_cases hRev : rev = PD_REV30 <;> cases t <;>
          simp +decide [hRev, retryField, TX_CONTROL_SEND_SIGNAL, TX_CONTROL_RETRY_COUNT,
            TX_CONTROL_FRAME_TYPE]
    · rw [hOr, ite_or_true] at hEq
      simp only [qcom_pmic_tcpm_pdphy_pd_transmit_signal, hEq]
      rw [if_pos ioErr_ne_zero]
      intro v hv
      rw [push_events, sentControlVals_append, hSent2, List.nil_append] at hv
      simp [sentControlVals] at hv
  · intro v hv
    rw [payload_sent_eq] at hv
    exact body_retry s t msg hs v hv


/-- Claim C1, counterexample: calling transmit_payload with negotiated
revision 3.0 but a message whose header carries revision 2.0 arms the
transmission with TX control value 97, whose retry-count field is 3, not
the 2 the claim requires for negotiated revision 3.0. -/
theorem c1_counterexample :
    sentControlVals
        (qcom_pmic_tcpm_pdphy_pd_transmit_payload initS .sop msgRev20 PD_REV30).2.events
      = [97] ∧ retryField 97 = 3 ∧ pd_header_rev msgRev20.header = PD_REV20 := by
  decide

/-- Claim C1, witness: the amended theorem applied at a concrete state and
message. -/
theorem c1_witness :
    (∀ v ∈ sentControlVals
        (qcom_pmic_tcpm_pdphy_pd_transmit_signal initS .sop PD_REV30).2.events,
        retryField v = if PD_REV30 = PD_REV30 then 2 else 3) ∧
    (∀ v ∈ sentControlVals
        (qcom_pmic_tcpm_pdphy_pd_transmit_payload initS .sop msgRev20 PD_REV30).2.events,
        retryField v = if pd_header_rev msgRev20.header = PD_REV30 then 2 else 3) :=
  c1_amended_retry_counts initS .sop msgRev20 PD_REV30 rfl

theorem countEvent_append (e : Event) (l1 l2 : List Event) :
    countEvent e (l1 ++ l2) = countEvent e l1 + countEvent e l2 := by
  induction l1 with
  | nil => simp [countEvent]
  | cons e2 l ih => simp [countEvent, ih]; omega

theorem reset_on_events (s : S) :
    ∃ f1 f2 : Bool,
      (qcom_pmic_tcpm_pdphy_reset_on s).events = s.events ++ resetOnEvents f1 f2 := by
  obtain ⟨ok1, sa, hEq1, hEv1, _, _⟩ := regmap_write_spec s .txControl 0
  cases ok1
  · rw [ite_ok_false] at hEq1
    refine ⟨true, false, ?_⟩
    simp only [qcom_pmic_tcpm_pdphy_reset_on, hEq1]
    rw [if_pos ioErr_ne_zero]
    simp [push_events, hEv1, resetOnEvents]
  · rw [ite_ok_true] at hEq1
    obtain ⟨ok2, sb, hEq2, hEv2, _, _⟩ := regmap_write_spec sa .frameFilter 0
    cases ok2
    · rw [ite_ok_false] at hEq2
      refine ⟨false, true, ?_⟩
      simp only [qcom_pmic_tcpm_pdphy_reset_on, hEq1, hEq2]
      rw [if_neg not_zero_ne, if_pos ioErr_ne_zero]
      simp [push_events, hEv2, hEv1, resetOnEvents]
    · rw [ite_ok_true] at hEq2
      refine ⟨false, false, ?_⟩
      simp only [qcom_pmic_tcpm_pdphy_reset_on, hEq1, hEq2]
      rw [if_neg not_zero_ne, if_neg not_zero_ne]
      simp [hEv2, hEv1, resetOnEvents]

theorem reset_off_events (s : S) :
    ∃ f : Bool,
      (qcom_pmic_tcpm_pdphy_reset_off s).events = s.events ++ resetOffEvents f := by
  obtain ⟨ok1, sa, hEq1, hEv1, _, _⟩ := regmap_write_spec s .frameFilter
    (FRAME_FILTER_EN_SOP ||| FRAME_FILTER_EN_HARD_RESET)
  cases ok1
  · rw [ite_ok_false] at hEq1
    refine ⟨true, ?_⟩
    simp only [qcom_pmic_tcpm_pdphy_reset_off, hEq1]
    rw [if_pos ioErr_ne_zero]
    simp [push_events, hEv1, resetOffEvents]
  · rw [ite_ok_true] at hEq1
    refine ⟨false, ?_⟩
    simp only [qcom_pmic_tcpm_pdphy_reset_off, hEq1]
    rw [if_neg not_zero_ne]
    simp [hEv1, resetOffEvents]

theorem countEvent_hardReset_resetOn (a b : Bool) :
    countEvent Event.hardReset (resetOnEvents a b) = 0 := by
  cases a <;> cases b <;> rfl

theorem countEvent_hardReset_resetOff (c : Bool) :
    countEvent Event.hardReset (resetOffEvents c) = 0 := by
  cases c <;> rfl

/-- Claim C3 (amended): reset_on writes 0 to the TX control register and,
only when that write succeeded, writes 0 to the frame-filter register;
either failure is logged, and a failed first write means the second write
is not attempted at all. -/
theorem c3_amended_reset_on_paths (s : S) (hs : s.events = []) :
    (qcom_pmic_tcpm_pdphy_reset_on s).events =
      resetOnEvents (s.failures.getD 0 false) (s.failures.getD 1 false) := by
  rcases hF : s.failures with _ | ⟨b1, _ | ⟨b2, rest⟩⟩
  · simp [qcom_pmic_tcpm_pdphy_reset_on, regmap_write, nextFail, hF, S.push, hs,
      resetOnEvents, ioErr]
  · cases b1 <;>
      simp [qcom_pmic_tcpm_pdphy_reset_on, regmap_write, nextFail, hF, S.push, hs,
        resetOnEvents, ioErr]
  · cases b1 <;> cases b2 <;>
      simp [qcom_pmic_tcpm_pdphy_reset_on, regmap_write, nextFail, hF, S.push, hs,
        resetOnEvents, ioErr]

/-- Claim C3, counterexample: when the first write of reset_on (0 to the
TX control register) fails, the trace is just that failed write and the
error log; the frame-filter write is never attempted, contradicting the
claim that the other write is still attempted. -/
theorem c3_counterexample :
    (qcom_pmic_tcpm_pdphy_reset_on firstWriteFailS).events
      = [Event.write .txControl 0 false, Event.log] ∧
    writesToReg (qcom_pmic_tcpm_pdphy_reset_on firstWriteFailS).events .frameFilter
      = false := by
  decide

/-- Claim C3, witness: the amended theorem applied at the concrete state
whose first write fails. -/
theorem c3_witness :
    (qcom_pmic_tcpm_pdphy_reset_on firstWriteFailS).events =
      resetOnEvents (firstWriteFailS.failures.getD 0 false)
        (firstWriteFailS.failures.getD 1 false) :=
  c3_amended_reset_on_paths firstWriteFailS rfl

/-- Claim C6: whenever the deferred hard-reset work runs, its trace is the
lock, the reset_on writes, then the reset_off write, then the unlock and a
single hard-reset notification; in particular every reset_on register
write precedes the reset_off register write, and exactly one hard-reset
notification is delivered, after the unlock. -/
theorem c6_hard_reset_sequence (s : S) (hs : s.events = []) :
    ∃ a b c : Bool,
      (qcom_pmic_tcpm_pdphy_sig_reset_work s).events =
        Event.lock :: (resetOnEvents a b ++ (resetOffEvents c ++
          [Event.unlock, Event.hardReset])) ∧
      countEvent Event.hardReset (qcom_pmic_tcpm_pdphy_sig_reset_work s).events = 1 := by
  obtain ⟨a, b, hOn⟩ := reset_on_events (s.push .lock)
  obtain ⟨c, hOff⟩ := reset_off_events (qcom_pmic_tcpm_pdphy_reset_on (s.push .lock))
  have hEv : (qcom_pmic_tcpm_pdphy_sig_reset_work s).events =
      Event.lock :: (resetOnEvents a b ++ (resetOffEvents c ++
        [Event.unlock, Event.hardReset])) := by
    simp [qcom_pmic_tcpm_pdphy_sig_reset_work, push_events, hOff, hOn, hs]
  refine ⟨a, b, c, hEv, ?_⟩
  rw [hEv]
  simp [countEvent, countEvent_append, countEvent_hardReset_resetOn,
    countEvent_hardReset_resetOff]

/-- Claim C6, witness: the trace decomposition at a concrete state. -/
theorem c6_witness :
    ∃ a b c : Bool,
      (qcom_pmic_tcpm_pdphy_sig_reset_work initS).events =
        Event.lock :: (resetOnEvents a b ++ (resetOffEvents c ++
          [Event.unlock, Event.hardReset])) ∧
      countEvent Event.hardReset (qcom_pmic_tcpm_pdphy_sig_reset_work initS).events = 1 :=
  c6_hard_reset_sequence initS rfl

/-- Claim C4: when the initial read of the RX-acknowledge register in
transmit_payload succeeds and returns a non-zero value, the call returns
-EBUSY, its trace is exactly the lock, the read, the error logs and the
unlock, every register keeps its prior value, and no write of any kind to
any register is attempted. -/
theorem c4_busy_rejects (s : S) (t : TxType) (msg : PdMessage) (rev : Nat)
    (hs : s.events = []) (hack : s.regs .rxAcknowledge ≠ 0)
    (hf : s.failures.getD 0 false = false) :
    (qcom_pmic_tcpm_pdphy_pd_transmit_payload s t msg rev).1 = busyErr ∧
    (qcom_pmic_tcpm_pdphy_pd_transmit_payload s t msg rev).2.events
      = [.lock, .read .rxAcknowledge true, .log, .unlock, .log] ∧
    (∀ r : Reg, (qcom_pmic_tcpm_pdphy_pd_transmit_payload s t msg rev).2.regs r
      = s.regs r) ∧
    (∀ r : Reg, writesToReg
      (qcom_pmic_tcpm_pdphy_pd_transmit_payload s t msg rev).2.events r = false) := by
  rcases hF : s.failures with _ | ⟨b, rest⟩
  · refine ⟨?_, ?_, ?_, ?_⟩ <;>
      simp [qcom_pmic_tcpm_pdphy_pd_transmit_payload, pd_transmit_payload_body,
        regmap_read, nextFail, hF, S.push, hs, hack, busyErr, writesToReg]
  · rw [hF] at hf
    simp only [List.getD] at hf
    subst hf
    refine ⟨?_, ?_, ?_, ?_⟩ <;>
      simp [qcom_pmic_tcpm_pdphy_pd_transmit_payload, pd_transmit_payload_body,
        regmap_read, nextFail, hF, S.push, hs, hack, busyErr, writesToReg]

theorem msgBufBytes_take (rd : List Nat) (g : Nat → Nat) :
    (msgBufBytes rd g).take rd.length = rd := by
  rw [msgBufBytes, List.take_left]

/-- Claim C5: when the RX size register reads a value n in [1, 28] and
all register I/O succeeds, the receive path reads the status register,
bulk-reads n+1 bytes from the RX buffer, performs exactly one write of 0
to the RX-acknowledge register, and only afterwards delivers exactly one
message, whose first n+1 bytes are the bytes read. -/
theorem c5_receive_valid (s : S) (g : Nat → Nat) (n : Nat)
    (hs : s.events = []) (hf : s.failures = [])
    (hn : s.regs .rxSize = n) (h1 : 1 ≤ n) (h2 : n ≤ 28) :
    (qcom_pmic_tcpm_pdphy_pd_receive s g).events =
      [.lock, .read .rxSize true, .read .rxStatus true, .bulkRead .rxBuffer (n+1) true,
       .write .rxAcknowledge 0 true, .unlock,
       .msgReceived (msgBufBytes ((List.range (n+1)).map s.rxBuf) g)] ∧
    ackWrites (qcom_pmic_tcpm_pdphy_pd_receive s g).events = [0] ∧
    msgsDelivered (qcom_pmic_tcpm_pdphy_pd_receive s g).events
      = [msgBufBytes ((List.range (n+1)).map s.rxBuf) g] ∧
    (msgBufBytes ((List.range (n+1)).map s.rxBuf) g).take (n+1)
      = (List.range (n+1)).map s.rxBuf := by
  have hrange : ¬ (n = 0 ∨ 28 < n) := by omega
  have hEv : (qcom_pmic_tcpm_pdphy_pd_receive s g).events =
      [.lock, .read .rxSize true, .read .rxStatus true, .bulkRead .rxBuffer (n+1) true,
       .write .rxAcknowledge 0 true, .unlock,
       .msgReceived (msgBufBytes ((List.range (n+1)).map s.rxBuf) g)] := by
    simp [qcom_pmic_tcpm_pdphy_pd_receive, regmap_read, regmap_bulk_read, regmap_write,
      nextFail, hf, hs, hn, hrange, S.push, setReg]
  refine ⟨hEv, ?_, ?_, ?_⟩
  · rw [hEv]; simp [ackWrites]
  · rw [hEv]; simp [msgsDelivered]
  · have hlen : ((List.range (n+1)).map s.rxBuf).length = n + 1 := by simp
    have htake := msgBufBytes_take ((List.range (n+1)).map s.rxBuf) g
    rwa [hlen] at htake

/-- Claim C7: for every message transmitted by transmit_payload with all
register I/O succeeding and no RX pending, the single value written to
the TX size register is (2 + 4*objectCount) - 1, which equals 1 for a
header-only message and 1 + payloadLen otherwise. -/
theorem c7_tx_size (s : S) (t : TxType) (msg : PdMessage) (rev : Nat)
    (hs : s.events = []) (hf : s.failures = []) (hack : s.regs .rxAcknowledge = 0) :
    txSizeWrites (qcom_pmic_tcpm_pdphy_pd_transmit_payload s t msg rev).2.events
      = [2 + 4 * pd_header_cnt msg.header - 1] ∧
    2 + 4 * pd_header_cnt msg.header - 1
      = (if pd_header_cnt msg.header = 0 then 1
         else 1 + 4 * pd_header_cnt msg.header) := by
  constructor
  · by_cases hCnt : pd_header_cnt msg.header * 4 = 0
    · simp [qcom_pmic_tcpm_pdphy_pd_transmit_payload, pd_transmit_payload_body,
        pd_transmit_payload_finish, qcom_pmic_tcpm_pdphy_clear_tx_control_reg,
        regmap_write, regmap_read, regmap_bulk_write, nextFail, hf, hs, hack, hCnt,
        S.push, setReg, txSizeWrites]
      omega
    · simp [qcom_pmic_tcpm_pdphy_pd_transmit_payload, pd_transmit_payload_body,
        pd_transmit_payload_finish, qcom_pmic_tcpm_pdphy_clear_tx_control_reg,
        regmap_write, regmap_read, regmap_bulk_write, nextFail, hf, hs, hack, hCnt,
        S.push, setReg, txSizeWrites]
      omega
  · split <;> omega

/-- Claim C4, witness: the busy rejection at a concrete state whose
RX-acknowledge register holds 1. -/
theorem c4_witness :
    (qcom_pmic_tcpm_pdphy_pd_transmit_payload rxBusyS .sop msgRev20 PD_REV30).1 = busyErr ∧
    (qcom_pmic_tcpm_pdphy_pd_transmit_payload rxBusyS .sop msgRev20 PD_REV30).2.events
      = [.lock, .read .rxAcknowledge true, .log, .unlock, .log] ∧
    (∀ r : Reg, (qcom_pmic_tcpm_pdphy_pd_transmit_payload rxBusyS .sop msgRev20 PD_REV30).2.regs r
      = rxBusyS.regs r) ∧
    (∀ r : Reg, writesToReg
      (qcom_pmic_tcpm_pdphy_pd_transmit_payload rxBusyS .sop msgRev20 PD_REV30).2.events r
      = false) :=
  c4_busy_rejects rxBusyS .sop msgRev20 PD_REV30 rfl (by decide) rfl

/-- Claim C5, witness: the receive path at a concrete state whose RX size
register reads 5. -/
theorem c5_witness :
    (qcom_pmic_tcpm_pdphy_pd_receive rxSize5S garbage7).events =
      [.lock, .read .rxSize true, .read .rxStatus true, .bulkRead .rxBuffer 6 true,
       .write .rxAcknowledge 0 true, .unlock,
       .msgReceived (msgBufBytes ((List.range 6).map rxSize5S.rxBuf) garbage7)] ∧
    ackWrites (qcom_pmic_tcpm_pdphy_pd_receive rxSize5S garbage7).events = [0] ∧
    msgsDelivered (qcom_pmic_tcpm_pdphy_pd_receive rxSize5S garbage7).events
      = [msgBufBytes ((List.range 6).map rxSize5S.rxBuf) garbage7] ∧
    (msgBufBytes ((List.range 6).map rxSize5S.rxBuf) garbage7).take 6
      = (List.range 6).map rxSize5S.rxBuf :=
  c5_receive_valid rxSize5S garbage7 5 rfl rfl (by decide) (by decide) (by decide)

/-- Claim C7, witness: a two-object message is written with TX size 9. -/
theorem c7_witness :
    txSizeWrites
      (qcom_pmic_tcpm_pdphy_pd_transmit_payload initS .sop msgRev30Cnt2 PD_REV20).2.events
      = [2 + 4 * pd_header_cnt msgRev30Cnt2.header - 1] ∧
    2 + 4 * pd_header_cnt msgRev30Cnt2.header - 1
      = (if pd_header_cnt msgRev30Cnt2.header = 0 then 1
         else 1 + 4 * pd_header_cnt msgRev30Cnt2.header) :=
  c7_tx_size initS .sop msgRev30Cnt2 PD_REV20 rfl rfl rfl

theorem regmap_bulk_read_spec (s : S) (r : Reg) (len : Nat) :
    ∃ ok : Bool, ∃ s2 : S,
      regmap_bulk_read s r len = ((if ok then 0 else ioErr),
        (if ok then (List.range len).map s.rxBuf else []), s2) ∧
      s2.events = s.events ++ [Event.bulkRead r len ok] ∧
      s2.regs = s.regs ∧
      s2.rxBuf = s.rxBuf := by
  rcases hF : s.failures with _ | ⟨b, rest⟩
  · refine ⟨true, ⟨s.regs, s.rxBuf, s.failures, s.events ++ [Event.bulkRead r len true]⟩,
      ?_, rfl, rfl, rfl⟩
    simp [regmap_bulk_read, nextFail, hF, S.push]
  · cases b
    · refine ⟨true, ⟨s.regs, s.rxBuf, rest, s.events ++ [Event.bulkRead r len true]⟩,
        ?_, rfl, rfl, rfl⟩
      simp [regmap_bulk_read, nextFail, hF, S.push]
    · refine ⟨false, ⟨s.regs, s.rxBuf, rest, s.events ++ [Event.bulkRead r len false]⟩,
        ?_, rfl, rfl, rfl⟩
      simp [regmap_bulk_read, nextFail, hF, S.push, ioErr]

theorem receive_quiet (s : S) (g : Nat → Nat) :
    ∃ d : List Event,
      (qcom_pmic_tcpm_pdphy_pd_receive s g).events = s.events ++ d ∧
      (∀ st : TxStatus, countEvent (Event.transmitComplete st) d = 0) ∧
      countEvent Event.scheduleResetWork d = 0 ∧
      countEvent Event.hardReset d = 0 := by
  obtain ⟨ok0, sr, hEq0, hEv0, hRegs0, hBuf0⟩ := regmap_read_spec (s.push .lock) .rxSize
  cases ok0
  · rw [ite_ok_false] at hEq0
    refine ⟨[.lock, .read .rxSize false, .unlock], ?_, ?_, ?_, ?_⟩
    · simp only [qcom_pmic_tcpm_pdphy_pd_receive, hEq0]
      rw [if_pos ioErr_ne_zero]
      simp [push_events, hEv0]
    all_goals first | (intro st; simp [countEvent]) | simp [countEvent]
  · rw [ite_ok_true] at hEq0
    by_cases hSz : (s.push .lock).regs .rxSize < 1 ∨ (s.push .lock).regs .rxSize > 28
    · refine ⟨[.lock, .read .rxSize true, .unlock, .msgReceived (msgBufBytes [] g)],
        ?_, ?_, ?_, ?_⟩
      · simp only [qcom_pmic_tcpm_pdphy_pd_receive, hEq0]
        rw [if_neg not_zero_ne, if_pos hSz]
        simp [push_events, hEv0]
      all_goals first | (intro st; simp [countEvent]) | simp [countEvent]
    · obtain ⟨ok1, sa, hEq1, hEv1, hRegs1, hBuf1⟩ := regmap_read_spec sr .rxStatus
      cases ok1
      · rw [ite_ok_false] at hEq1
        refine ⟨[.lock, .read .rxSize true, .read .rxStatus false, .unlock], ?_, ?_, ?_, ?_⟩
        · simp only [qcom_pmic_tcpm_pdphy_pd_receive, hEq0, hEq1]
          rw [if_neg not_zero_ne, if_neg hSz, if_pos ioErr_ne_zero]
          simp [push_events, hEv1, hEv0]
        all_goals first | (intro st; simp [countEvent]) | simp [countEvent]
      · rw [ite_ok_true] at hEq1
        obtain ⟨ok2, sb, hEq2, hEv2, hRegs2, hBuf2⟩ := regmap_bulk_read_spec sa .rxBuffer
          ((s.push .lock).regs .rxSize + 1)
        cases ok2
        · rw [ite_ok_false] at hEq2
          refine ⟨[.lock, .read .rxSize true, .read .rxStatus true,
            .bulkRead .rxBuffer ((s.push .lock).regs .rxSize + 1) false, .unlock],
            ?_, ?_, ?_, ?_⟩
          · simp only [qcom_pmic_tcpm_pdphy_pd_receive, hEq0, hEq1, hEq2]
            rw [if_neg not_zero_ne, if_neg hSz, if_neg not_zero_ne, if_pos ioErr_ne_zero]
            simp [push_events, hEv2, hEv1, hEv0]
          all_goals first | (intro st; simp [countEvent]) | simp [countEvent]
        · rw [ite_ok_true] at hEq2
          obtain ⟨ok3, sc, hEq3, hEv3, hRegs3, hBuf3⟩ := regmap_write_spec sb .rxAcknowledge 0
          cases ok3
          · rw [ite_ok_false] at hEq3
            refine ⟨[.lock, .read .rxSize true, .read .rxStatus true,
              .bulkRead .rxBuffer ((s.push .lock).regs .rxSize + 1) true,
              .write .rxAcknowledge 0 false, .unlock], ?_, ?_, ?_, ?_⟩
            · simp only [qcom_pmic_tcpm_pdphy_pd_receive, hEq0, hEq1, hEq2, hEq3]
              rw [if_neg not_zero_ne, if_neg hSz, if_neg not_zero_ne, if_neg not_zero_ne,
                if_pos ioErr_ne_zero]
              simp [push_events, hEv3, hEv2, hEv1, hEv0]
            all_goals first | (intro st; simp [countEvent]) | simp [countEvent]
          · rw [ite_ok_true] at hEq3
            refine ⟨[.lock, .read .rxSize true, .read .rxStatus true,
              .bulkRead .rxBuffer ((s.push .lock).regs .rxSize + 1) true,
              .write .rxAcknowledge 0 true, .unlock,
              .msgReceived (msgBufBytes ((List.range ((s.push .lock).regs .rxSize + 1)).map sa.rxBuf) g)],
              ?_, ?_, ?_, ?_⟩
            · simp only [qcom_pmic_tcpm_pdphy_pd_receive, hEq0, hEq1, hEq2, hEq3]
              rw [if_neg not_zero_ne, if_neg hSz, if_neg not_zero_ne, if_neg not_zero_ne,
                if_neg not_zero_ne]
              simp [push_events, hEv3, hEv2, hEv1, hEv0]
            all_goals first | (intro st; simp [countEvent]) | simp [countEvent]

/-- Claim C2 evidence: when the RX size register reads the invalid value 0
and all register I/O succeeds, the receive path performs no write to the
RX-acknowledge register, yet it does call tcpm_pd_receive, handing up the
uninitialized 30-byte local message - the code delivers a message on the
invalid-size path, against the claim and the spec. -/
theorem c2_invalid_size_delivers :
    (qcom_pmic_tcpm_pdphy_pd_receive initS garbage7).events =
      [.lock, .read .rxSize true, .unlock, .msgReceived (msgBufBytes [] garbage7)] ∧
    ackWrites (qcom_pmic_tcpm_pdphy_pd_receive initS garbage7).events = [] ∧
    msgsDelivered (qcom_pmic_tcpm_pdphy_pd_receive initS garbage7).events
      = [msgBufBytes [] garbage7] ∧
    initS.regs .rxSize = 0 := by
  decide

/-- Claim C8 (amended): after a successful supply power-on in enable, a
failure of the revision-field write or of either write of the PHY-enable
zero-then-set toggle powers the supply off and returns the failure; but a
failure of the reset_off frame-filter write is only logged - enable still
returns 0 and the supply stays on. -/
theorem c8_amended_enable_error_policy (s : S) (f1 f2 f3 f4 : Bool) (rest : List Bool)
    (hs : s.events = []) (hF : s.failures = false :: f1 :: f2 :: f3 :: f4 :: rest) :
    ((f1 || f2 || f3) = true →
        (qcom_pmic_tcpm_pdphy_enable s).1 = ioErr ∧
        Event.regulatorDisable ∈ (qcom_pmic_tcpm_pdphy_enable s).2.events) ∧
    ((f1 || f2 || f3) = false →
        (qcom_pmic_tcpm_pdphy_enable s).1 = 0 ∧
        Event.regulatorDisable ∉ (qcom_pmic_tcpm_pdphy_enable s).2.events) := by
  cases f1 <;> cases f2 <;> cases f3 <;> cases f4 <;>
    simp [qcom_pmic_tcpm_pdphy_enable, qcom_pmic_tcpm_pdphy_reset_off,
      regulator_enable, regulator_disable, regmap_update_bits, regmap_write,
      nextFail, hF, hs, S.push, setReg, ioErr]

/-- Claim C8, counterexample: with every step succeeding except the
reset_off frame-filter write, enable returns 0 (success) and never powers
the supply off, although a register step after power-on failed - the
failed frame-filter write is visible in the trace. -/
theorem c8_counterexample :
    (qcom_pmic_tcpm_pdphy_enable resetOffFailS).1 = 0 ∧
    Event.write .frameFilter (FRAME_FILTER_EN_SOP ||| FRAME_FILTER_EN_HARD_RESET) false
      ∈ (qcom_pmic_tcpm_pdphy_enable resetOffFailS).2.events ∧
    Event.regulatorDisable ∉ (qcom_pmic_tcpm_pdphy_enable resetOffFailS).2.events := by
  decide

/-- Claim C8, witness: the amended policy applied at a state whose
revision-field write (the second I/O call) fails. -/
theorem c8_witness :
    ((true || false || false) = true →
        (qcom_pmic_tcpm_pdphy_enable enableFail2S).1 = ioErr ∧
        Event.regulatorDisable ∈ (qcom_pmic_tcpm_pdphy_enable enableFail2S).2.events) ∧
    ((true || false || false) = false →
        (qcom_pmic_tcpm_pdphy_enable enableFail2S).1 = 0 ∧
        Event.regulatorDisable ∉ (qcom_pmic_tcpm_pdphy_enable enableFail2S).2.events) :=
  c8_amended_enable_error_policy enableFail2S true false false false [] rfl rfl

/-- Claim C9: the interrupt dispatcher performs exactly the action the
table assigns to each interrupt and nothing else. -/
theorem c9_isr_dispatch (s : S) (virq : Virq) (g : Nat → Nat) (hs : s.events = []) :
    ((qcom_pmic_tcpm_pdphy_isr s virq g).events =
      (match virq with
        | .sigTx => [Event.log]
        | .sigRx => [Event.scheduleResetWork]
        | .msgTx => [Event.transmitComplete .success]
        | .msgRx => (qcom_pmic_tcpm_pdphy_pd_receive s g).events
        | .msgTxFail => [Event.transmitComplete .failed]
        | .msgTxDiscard => [Event.transmitComplete .discarded]
        | .msgRxDiscard => [])) ∧
    (∀ st : TxStatus, countEvent (Event.transmitComplete st)
        (qcom_pmic_tcpm_pdphy_isr s virq g).events
      = if virq = statusVirq st then 1 else 0) ∧
    (countEvent Event.scheduleResetWork (qcom_pmic_tcpm_pdphy_isr s virq g).events
      = if virq = .sigRx then 1 else 0) ∧
    (countEvent Event.hardReset (qcom_pmic_tcpm_pdphy_isr s virq g).events = 0) := by
  obtain ⟨d, hD, hTc, hSrw, hHr⟩ := receive_quiet s g
  cases virq
  case msgRx =>
    refine ⟨rfl, ?_, ?_, ?_⟩
    · intro st
      rw [qcom_pmic_tcpm_pdphy_isr, hD, hs, List.nil_append, hTc st]
      cases st <;> simp [statusVirq]
    · rw [qcom_pmic_tcpm_pdphy_isr, hD, hs, List.nil_append, hSrw]
      simp
    · rw [qcom_pmic_tcpm_pdphy_isr, hD, hs, List.nil_append, hHr]
  all_goals
    refine ⟨?_, ?_, ?_, ?_⟩
    · simp [qcom_pmic_tcpm_pdphy_isr, push_events, hs]
    · intro st
      cases st <;>
        simp [qcom_pmic_tcpm_pdphy_isr, push_events, hs, countEvent, statusVirq]
    · simp [qcom_pmic_tcpm_pdphy_isr, push_events, hs, countEvent]
    · simp [qcom_pmic_tcpm_pdphy_isr, push_events, hs, countEvent]

/-- Claim C9, witness at msg-tx. -/
theorem c9_witness :
    ((qcom_pmic_tcpm_pdphy_isr initS .msgTx garbage7).events =
      (match Virq.msgTx with
        | .sigTx => [Event.log]
        | .sigRx => [Event.scheduleResetWork]
        | .msgTx => [Event.transmitComplete .success]
        | .msgRx => (qcom_pmic_tcpm_pdphy_pd_receive initS garbage7).events
        | .msgTxFail => [Event.transmitComplete .failed]
        | .msgTxDiscard => [Event.transmitComplete .discarded]
        | .msgRxDiscard => [])) ∧
    (∀ st : TxStatus, countEvent (Event.transmitComplete st)
        (qcom_pmic_tcpm_pdphy_isr initS .msgTx garbage7).events
      = if Virq.msgTx = statusVirq st then 1 else 0) ∧
    (countEvent Event.scheduleResetWork (qcom_pmic_tcpm_pdphy_isr initS .msgTx garbage7).events
      = if Virq.msgTx = .sigRx then 1 else 0) ∧
    (countEvent Event.hardReset (qcom_pmic_tcpm_pdphy_isr initS .msgTx garbage7).events = 0) :=
  c9_isr_dispatch initS .msgTx garbage7 rfl

/-- Claim C10: set_roles changes exactly the two role bits. -/
theorem c10_set_roles_bits (s : S) (d p : Bool) (hf : s.failures = []) :
    ((qcom_pmic_tcpm_pdphy_set_roles s d p).2.regs .msgConfig).testBit 3 = d ∧
    ((qcom_pmic_tcpm_pdphy_set_roles s d p).2.regs .msgConfig).testBit 2 = p ∧
    (∀ i : Nat, i ≠ 2 → i ≠ 3 →
      ((qcom_pmic_tcpm_pdphy_set_roles s d p).2.regs .msgConfig).testBit i
        = (s.regs .msgConfig).testBit i) ∧
    (∀ r : Reg, r ≠ .msgConfig →
      (qcom_pmic_tcpm_pdphy_set_roles s d p).2.regs r = s.regs r) ∧
    (qcom_pmic_tcpm_pdphy_set_roles s d p).1 = 0 := by
  have hUnf : (qcom_pmic_tcpm_pdphy_set_roles s d p).2.regs =
      setReg s.regs .msgConfig
        ((s.regs .msgConfig ^^^ (s.regs .msgConfig &&&
          (MSG_CONFIG_PORT_DATA_ROLE ||| MSG_CONFIG_PORT_POWER_ROLE))) |||
         (((if d then 8 else 0) ||| (if p then 4 else 0)) &&&
          (MSG_CONFIG_PORT_DATA_ROLE ||| MSG_CONFIG_PORT_POWER_ROLE))) := by
    simp [qcom_pmic_tcpm_pdphy_set_roles, regmap_update_bits, nextFail, hf, S.push]
  refine ⟨?_, ?_, ?_, ?_, ?_⟩
  · rw [hUnf]
    simp only [setReg, if_pos rfl]
    cases d <;> cases p <;>
      simp +decide [MSG_CONFIG_PORT_DATA_ROLE, MSG_CONFIG_PORT_POWER_ROLE]
  · rw [hUnf]
    simp only [setReg, if_pos rfl]
    cases d <;> cases p <;>
      simp +decide [MSG_CONFIG_PORT_DATA_ROLE, MSG_CONFIG_PORT_POWER_ROLE]
  · intro i hi2 hi3
    rw [hUnf]
    simp only [setReg, if_pos rfl]
    have h12 : Nat.testBit (MSG_CONFIG_PORT_DATA_ROLE ||| MSG_CONFIG_PORT_POWER_ROLE) i
        = false := by
      rcases i with _ | _ | _ | _ | i
      · decide
      · decide
      · exact absurd rfl hi2
      · exact absurd rfl hi3
      · refine Nat.testBit_lt_two_pow ?_
        calc MSG_CONFIG_PORT_DATA_ROLE ||| MSG_CONFIG_PORT_POWER_ROLE < 2 ^ 4 := by decide
        _ ≤ 2 ^ (i + 4) := Nat.pow_le_pow_right (by omega) (by omega)
    simp [h12]
  · intro r hr
    rw [hUnf]
    simp [setReg, hr]
  · simp [qcom_pmic_tcpm_pdphy_set_roles, regmap_update_bits, nextFail, hf, S.push]

/-- Claim C10, witness. -/
theorem c10_witness :
    ((qcom_pmic_tcpm_pdphy_set_roles initS true false).2.regs .msgConfig).testBit 3 = true ∧
    ((qcom_pmic_tcpm_pdphy_set_roles initS true false).2.regs .msgConfig).testBit 2 = false ∧
    (∀ i : Nat, i ≠ 2 → i ≠ 3 →
      ((qcom_pmic_tcpm_pdphy_set_roles initS true false).2.regs .msgConfig).testBit i
        = (initS.regs .msgConfig).testBit i) ∧
    (∀ r : Reg, r ≠ .msgConfig →
      (qcom_pmic_tcpm_pdphy_set_roles initS true false).2.regs r = initS.regs r) ∧
    (qcom_pmic_tcpm_pdphy_set_roles initS true false).1 = 0 :=
  c10_set_roles_bits initS true false rfl

end Pdphy
